import Mathlib

/-!
Shallow embedding of the SafeRoutes route-planning client
(src/src/App.jsx and src/src/components/LocationPicker.jsx).

JavaScript numbers are modelled as rationals; JS strings as Lean strings.
The stateful React component `Planner` is modelled as a record
`PlannerState` holding its useState fields, and each event handler is a
pure transition function on that record, returning alongside the new
state a description of the network request (if any) it issues.
-/

namespace SafeRoutes

/-- A geographic point `{ lat, lon }` in decimal degrees. -/
structure GeoPoint where
  lat : ℚ
  lon : ℚ
deriving DecidableEq, Repr

/-- JS `Math.round`: round half toward positive infinity. -/
def jsRound (q : ℚ) : ℤ := ⌊q + 1 / 2⌋

/-- The integer `n` minimising the distance of `n / scale` to `q ≥ 0`,
ties rounded up — the digit source of JS `Number.prototype.toFixed`
applied to the magnitude of its argument (scale is `10 ^ digits`). -/
def halfUpScaled (scale : ℕ) (q : ℚ) : ℤ := ⌊q * scale + 1 / 2⌋

/-- Numeric value of `Number((q).toFixed(d))` where `scale = 10 ^ d`:
the sign is taken first, then the magnitude is rounded half-up at
`d` decimal places (per the ECMAScript `toFixed` algorithm). -/
def toFixedVal (scale : ℕ) (q : ℚ) : ℚ :=
  if q < 0 then -((halfUpScaled scale (-q) : ℚ) / scale)
  else (halfUpScaled scale q : ℚ) / scale

/-- The decimal digit character for `d < 10`. -/
def digitChar (d : ℕ) : Char := Char.ofNat (48 + d)

/-- Fuel-indexed loop producing the decimal digits of `n` (most
significant first) in front of `acc`; `fuel ≥ n` suffices. -/
def natDigitsGo : ℕ → ℕ → List Char → List Char
  | 0, n, acc => digitChar n :: acc
  | fuel + 1, n, acc =>
    if n < 10 then digitChar n :: acc
    else natDigitsGo fuel (n / 10) (digitChar (n % 10) :: acc)

/-- Decimal digit list of a natural number, most significant first. -/
def natDigits (n : ℕ) : List Char := natDigitsGo n n []

/-- Decimal string of a natural number, as JS template literals render
nonnegative integer numbers. -/
def natStr (n : ℕ) : String := String.mk (natDigits n)

/-- Exactly four decimal digit characters of `r` (taken mod 10000),
zero-padded — the fractional part printed by `toFixed(4)`. -/
def pad4 (r : ℕ) : List Char :=
  [digitChar (r / 1000 % 10), digitChar (r / 100 % 10),
   digitChar (r / 10 % 10), digitChar (r % 10)]

/-- Character list of `toFixed(4)` for a nonnegative value already
scaled by `10 ^ 4` to the integer `k`. -/
def fixed4Nat (k : ℕ) : List Char :=
  natDigits (k / 10000) ++ '.' :: pad4 (k % 10000)

/-- Character list of `(q).toFixed(4)`: a leading minus sign for
negative input, then the half-up-rounded magnitude with four decimal
places (so `-1e-9` renders as the JS result "-0.0000"). -/
def fixed4Chars (q : ℚ) : List Char :=
  if q < 0 then '-' :: fixed4Nat (halfUpScaled 10000 (-q)).toNat
  else fixed4Nat (halfUpScaled 10000 q).toNat

/-- The pair (sign bit, half-up-rounded scaled magnitude) displayed by
`toFixed(4)`; `fixed4Chars` is injective through this pair. -/
def rounded4 (q : ℚ) : Bool × ℤ :=
  (decide (q < 0), if q < 0 then halfUpScaled 10000 (-q) else halfUpScaled 10000 q)

/-- Decimal rendering of an integer JS number such as the result of
`Math.round`. -/
def intChars (m : ℤ) : List Char :=
  if m < 0 then '-' :: natDigits m.natAbs else natDigits m.natAbs

/-- The `geometry` object of a route candidate: a `coordinates` array
of two-element arrays, accessed as `c[0]` / `c[1]` in the source. -/
structure Geometry where
  coordinates : List (ℚ × ℚ)
deriving DecidableEq

/-- A route candidate as consumed from the planning response. -/
structure RouteCandidate where
  geometry : Geometry
  distance_m : ℚ
  eta_minutes : ℚ
  average_safety_score : ℚ
deriving DecidableEq

/-- Character list of the route fingerprint built in `routeId`
(App.jsx 166-171) for a candidate with nonempty coordinates:
the template literal
r_(head0)_(head1)_(tail0)_(tail1)_(round distance) with the four
coordinate components printed through `toFixed(4)`. -/
def routeIdCore (c : RouteCandidate) : List Char :=
  match c.geometry.coordinates.head?, c.geometry.coordinates.getLast? with
  | some hd, some tl =>
      'r' :: '_' :: (fixed4Chars hd.1 ++ '_' :: (fixed4Chars hd.2 ++
        '_' :: (fixed4Chars tl.1 ++ '_' :: (fixed4Chars tl.2 ++
          '_' :: intChars (jsRound c.distance_m)))))
  | _, _ => []

/-- The `routeId` memo of App.jsx 166-171: the empty string when no
candidate is chosen or its coordinate list is empty, else the
fingerprint string. -/
def routeId (chosen : Option RouteCandidate) : String :=
  match chosen with
  | none => ""
  | some c => String.mk (routeIdCore c)

/-- A client-side bookmark record (App.jsx 212-220). -/
structure Bookmark where
  id : String
  name : String
  start : GeoPoint
  end_ : GeoPoint
deriving DecidableEq

/-- A trip record as consumed from the backend. -/
structure Trip where
  serverId : String
  user_uid : String
  origin : GeoPoint
  destination : GeoPoint
  route_id : String
  mode : String
  distance_km : ℚ
  eta_minutes : ℚ
  safety_score : ℚ
deriving DecidableEq

/-- The derived trip summary returned by GET /api/trips/summary. -/
structure TripSummary where
  total_trips : ℤ
  total_km : ℚ
  avg_safety : ℚ
  favorite_mode : Option String
deriving DecidableEq

/-- The display summary stored in the `result` state by `showSafest`
(App.jsx 150-155); optional fields model the optional chaining
`data.chosen?.…` and the `null` distance when no candidate came back. -/
structure DisplaySummary where
  mode : String
  eta_minutes : Option ℚ
  average_safety_score : Option ℚ
  distance_km : Option ℚ
deriving DecidableEq

/-- Body of POST /api/routes/plan as built by `showSafest`. -/
structure PlanRequest where
  start : GeoPoint
  end_ : GeoPoint
  mode : String
  time_of_day : String
deriving DecidableEq

/-- Response of POST /api/routes/plan as consumed by `showSafest`;
`chosen` and `alternatives` may be absent from the JSON. -/
structure PlanResponse where
  mode : String
  chosen : Option RouteCandidate
  alternatives : Option (List RouteCandidate)
deriving DecidableEq

/-- The optional `opts` argument of `showSafest`; an absent field makes
the handler fall back to the session's current value. -/
structure PlanOpts where
  start : Option GeoPoint
  end_ : Option GeoPoint
  mode : Option String
  time_of_day : Option String
deriving DecidableEq

/-- `showSafest()` called with no argument. -/
def emptyOpts : PlanOpts := ⟨none, none, none, none⟩

/-- The map-click pick target: the `selecting` state holds the string
start, the string end, or null. -/
inductive SelTarget where
  | targetStart
  | targetEnd
deriving DecidableEq, Repr

/-- The useState fields of the `Planner` component (App.jsx 82-104). -/
structure PlannerState where
  mode : String
  timeOfDay : String
  autoRefresh : Bool
  result : Option DisplaySummary
  start : GeoPoint
  end_ : GeoPoint
  selecting : Option SelTarget
  chosenRoute : Option RouteCandidate
  alternatives : List RouteCandidate
  userId : String
  logStatus : String
  trips : List Trip
  loadingTrips : Bool
  tripFilter : String
  summary : Option TripSummary
  bookmarks : List Bookmark
  bookmarkName : String
deriving DecidableEq

/-- JS `o?.p || d` for an object-valued field: objects are truthy, so
only an absent field falls back. -/
def jsOrPoint (o : Option GeoPoint) (d : GeoPoint) : GeoPoint := o.getD d

/-- JS `o?.s || d` for a string-valued field: the empty string is falsy
and also falls back. -/
def jsOrString (o : Option String) (d : String) : String :=
  match o with
  | some s => if s = "" then d else s
  | none => d

/-- The synchronous prefix of `showSafest` (App.jsx 138-147): resolve
the per-call overrides, clear `chosenRoute`, `alternatives` and
`logStatus`, and issue the plan request built from the resolved
values.  Everything after the `await` belongs to `showSafestResolve`. -/
def showSafestIssue (st : PlannerState) (opts : PlanOpts) : PlannerState × PlanRequest :=
  ({ st with chosenRoute := none, alternatives := [], logStatus := "" },
   { start := jsOrPoint opts.start st.start,
     end_ := jsOrPoint opts.end_ st.end_,
     mode := jsOrString opts.mode st.mode,
     time_of_day := jsOrString opts.time_of_day st.timeOfDay })

/-- The continuation of `showSafest` after a successful response
(App.jsx 148-155). -/
def showSafestResolve (st : PlannerState) (data : PlanResponse) : PlannerState :=
  { st with
    chosenRoute := data.chosen,
    alternatives := data.alternatives.getD [],
    result := some
      { mode := data.mode,
        eta_minutes := data.chosen.map (fun c => c.eta_minutes),
        average_safety_score := data.chosen.map (fun c => c.average_safety_score),
        distance_km := data.chosen.map (fun c => toFixedVal 1000 (c.distance_m / 1000)) } }

/-- A transport failure of the plan request: `showSafest` has no catch
handler, so the rejection propagates and no further state mutation
runs — the session stays exactly as `showSafestIssue` left it. -/
def planTransportFail (st : PlannerState) : PlannerState := st

/-- The auto-recompute effect (App.jsx 159-164): it runs once per
committed change of `mode`, `timeOfDay`, `start` or `end`, and calls
`showSafest()` exactly when `autoRefresh && result` holds. -/
def autoRecomputeEffect (st : PlannerState) : PlannerState × List PlanRequest :=
  if st.autoRefresh && st.result.isSome then
    ((showSafestIssue st emptyOpts).1, [(showSafestIssue st emptyOpts).2])
  else (st, [])

/-- The map-click handler of `MapClickSelector` (App.jsx 66-80), also
`ClickSelector` in LocationPicker.jsx 100-114: a click sets `start` and
advances to picking the end, or sets `end` and disarms, or — with no
pick target armed — does nothing. -/
def consumeClick (st : PlannerState) (p : GeoPoint) : PlannerState :=
  match st.selecting with
  | some SelTarget.targetStart => { st with start := p, selecting := some SelTarget.targetEnd }
  | some SelTarget.targetEnd => { st with end_ := p, selecting := none }
  | none => st

/-- Outcome of one awaited backend call. -/
inductive FetchResult (α : Type) where
  | ok (a : α)
  | transportError
deriving DecidableEq

/-- Response of GET /api/trips; the `trips` array may be absent
(`t.trips || []`). -/
structure TripsResponse where
  trips : Option (List Trip)
deriving DecidableEq

/-- Which trip-history fetches a `loadTrips` run actually performed. -/
inductive TripFetch where
  | tripList
  | summaryFetch
deriving DecidableEq, Repr

/-- `loadTrips` (App.jsx 111-122): an empty uid returns immediately;
otherwise the trip list is awaited first and, only if it succeeds, the
summary is awaited next — the two awaits sit in one try block whose
only catch-free protection is a finally resetting `loadingTrips`.
`r1` and `r2` are the outcomes the network would give to the two
fetches; the returned list records which fetches were issued. -/
def loadTrips (uid : String) (r1 : FetchResult TripsResponse)
    (r2 : FetchResult TripSummary) (st : PlannerState) :
    PlannerState × List TripFetch :=
  if uid = "" then (st, [])
  else
    match r1 with
    | FetchResult.transportError =>
        ({ st with loadingTrips := false }, [TripFetch.tripList])
    | FetchResult.ok t =>
        let st1 := { st with loadingTrips := true, trips := t.trips.getD [] }
        match r2 with
        | FetchResult.transportError =>
            ({ st1 with loadingTrips := false }, [TripFetch.tripList, TripFetch.summaryFetch])
        | FetchResult.ok s =>
            ({ st1 with summary := some s, loadingTrips := false },
             [TripFetch.tripList, TripFetch.summaryFetch])

/-- Body of POST /api/trips as built by `logTrip`. -/
structure TripPayload where
  user_uid : String
  origin : GeoPoint
  destination : GeoPoint
  route_id : String
  mode : String
  distance_km : ℚ
  eta_minutes : ℚ
  safety_score : ℚ
deriving DecidableEq

/-- The synchronous prefix of `logTrip` (App.jsx 173-186): with no
chosen route it returns before touching any state and issues no
request (`none`); otherwise it clears `logStatus` and posts the trip
payload, with `routeId || r_(Date.now())` supplying the identifier and
`now` standing for `Date.now()`. -/
def logTrip (now : ℕ) (st : PlannerState) : PlannerState × Option TripPayload :=
  match st.chosenRoute with
  | none => (st, none)
  | some c =>
      ({ st with logStatus := "" },
       some
         { user_uid := st.userId,
           origin := st.start,
           destination := st.end_,
           route_id :=
             if routeId st.chosenRoute = "" then "r_" ++ natStr now
             else routeId st.chosenRoute,
           mode := st.mode,
           distance_km := toFixedVal 1000 (c.distance_m / 1000),
           eta_minutes := c.eta_minutes,
           safety_score := c.average_safety_score })

/-- ASCII whitespace, the relevant fragment of the character class JS
`String.prototype.trim` strips (the full class also has Unicode spaces,
which the bookmark claims never exercise). -/
def isWS (c : Char) : Bool :=
  c == ' ' || c == '\t' || c == '\n' || c == '\r'

/-- Model of JS `s.trim()`: drop leading and trailing whitespace. -/
def jsTrim (s : String) : String :=
  String.mk (((s.data.dropWhile isWS).reverse.dropWhile isWS).reverse)

/-- `addBookmark` (App.jsx 212-220): a name trimming to empty returns
before any mutation; otherwise a fresh bookmark is prepended, the list
is truncated to 20 entries, stored and persisted, and the name input
is cleared.  The returned option is the list handed to `saveBookmarks`
(hence written to localStorage); `none` means nothing was persisted. -/
def addBookmark (now : ℕ) (st : PlannerState) : PlannerState × Option (List Bookmark) :=
  if jsTrim st.bookmarkName = "" then (st, none)
  else
    let next :=
      ({ id := "b_" ++ natStr now, name := jsTrim st.bookmarkName,
         start := st.start, end_ := st.end_ } :: st.bookmarks).take 20
    ({ st with bookmarks := next, bookmarkName := "" }, some next)

/-- `deleteBookmark` (App.jsx 225-228): keep every bookmark whose id
differs from the argument, store and persist the filtered list. -/
def deleteBookmark (i : String) (st : PlannerState) : PlannerState × List Bookmark :=
  let next := st.bookmarks.filter (fun b => b.id ≠ i)
  ({ st with bookmarks := next }, next)

/-- Modelled from the spec (§3): the GeoPoint range invariant
lat ∈ [-90, 90], lon ∈ [-180, 180].  No validation code exists in the
source; this predicate only names the range the spec talks about. -/
def validGeoPoint (p : GeoPoint) : Prop :=
  -90 ≤ p.lat ∧ p.lat ≤ 90 ∧ -180 ≤ p.lon ∧ p.lon ≤ 180

instance (p : GeoPoint) : Decidable (validGeoPoint p) := by
  unfold validGeoPoint
  infer_instance

/-! Concrete fixtures used by witnesses and counterexamples. -/

/-- A concrete route candidate with two geometry points. -/
def sampleCandidate : RouteCandidate :=
  { geometry := ⟨[(0, 0), (1, 1)]⟩, distance_m := 1650, eta_minutes := 12,
    average_safety_score := 80 }

/-- A concrete trip summary. -/
def sampleSummary : TripSummary :=
  { total_trips := 2, total_km := 5, avg_safety := 80, favorite_mode := some "balanced" }

/-- A concrete display summary, marking a session that has computed a
route at least once. -/
def sampleDisplay : DisplaySummary :=
  { mode := "balanced", eta_minutes := some 12, average_safety_score := some 80,
    distance_km := some (33 / 20) }

/-- A concrete planner session state mirroring the initial values of
App.jsx 84-104, with integer coordinates for easy evaluation. -/
def baseState : PlannerState :=
  { mode := "balanced", timeOfDay := "day", autoRefresh := true, result := none,
    start := ⟨1, 2⟩, end_ := ⟨3, 4⟩, selecting := none, chosenRoute := none,
    alternatives := [], userId := "user_a", logStatus := "", trips := [],
    loadingTrips := false, tripFilter := "all", summary := none, bookmarks := [],
    bookmarkName := "Home" }

/-- A concrete bookmark indexed by a number. -/
def bmk (k : ℕ) : Bookmark :=
  { id := natStr k, name := "saved", start := ⟨0, 0⟩, end_ := ⟨1, 1⟩ }

/-- A full collection of twenty bookmarks. -/
def twentyBookmarks : List Bookmark := (List.range 20).map bmk

/-- A session holding a chosen route and one alternative. -/
def planningState : PlannerState :=
  { baseState with chosenRoute := some sampleCandidate,
                   alternatives := [sampleCandidate] }

/-- A session that has already computed a route and whose mode was just
switched to night_safe. -/
def nightState : PlannerState :=
  { baseState with mode := "night_safe", result := some sampleDisplay }

/-- A session whose start latitude 200 lies outside [-90, 90]. -/
def badStartState : PlannerState :=
  { baseState with start := ⟨200, 0⟩ }

/-! Claim C4: two-click point selection. -/

/-- C4: with the pick target on Start, a click sets `start` to the
click location, advances the target to End and leaves `end` untouched;
the next click sets `end`, leaves `start` at the first location and
disarms the target; a click with no target armed changes nothing. -/
theorem consumeClick_pair_spec (st : PlannerState) (p1 p2 : GeoPoint)
    (h : st.selecting = some SelTarget.targetStart) :
    (consumeClick st p1).start = p1 ∧
    (consumeClick st p1).end_ = st.end_ ∧
    (consumeClick st p1).selecting = some SelTarget.targetEnd ∧
    (consumeClick (consumeClick st p1) p2).end_ = p2 ∧
    (consumeClick (consumeClick st p1) p2).start = p1 ∧
    (consumeClick (consumeClick st p1) p2).selecting = none ∧
    (∀ (s : PlannerState) (p : GeoPoint), s.selecting = none → consumeClick s p = s) := by
  have h1 : consumeClick st p1 =
      { st with start := p1, selecting := some SelTarget.targetEnd } := by
    rw [consumeClick, h]
  have h2 : consumeClick (consumeClick st p1) p2 =
      { st with start := p1, end_ := p2, selecting := none } := by
    rw [h1, consumeClick]
  refine ⟨by rw [h1], by rw [h1], by rw [h1], by rw [h2], by rw [h2], by rw [h2], ?_⟩
  intro s p hs
  rw [consumeClick, hs]

/-- C4 witness: the two-click scenario at concrete points. -/
theorem consumeClick_pair_witness :
    (consumeClick (consumeClick { baseState with selecting := some SelTarget.targetStart }
        ⟨5, 6⟩) ⟨7, 8⟩).end_ = ⟨7, 8⟩ :=
  (consumeClick_pair_spec { baseState with selecting := some SelTarget.targetStart }
    ⟨5, 6⟩ ⟨7, 8⟩ rfl).2.2.2.1

/-! Claim C9: adding a bookmark whose name trims to empty. -/

/-- C9: when the bookmark name trims to the empty string, `addBookmark`
is a silent no-op: the state (bookmark collection included) is
unchanged and nothing is handed to persistence. -/
theorem addBookmark_empty_name_noop (now : ℕ) (st : PlannerState)
    (h : jsTrim st.bookmarkName = "") :
    addBookmark now st = (st, none) := by
  rw [addBookmark, if_pos h]

/-- C9 witness: a whitespace-only name leaves the session untouched. -/
theorem addBookmark_empty_name_witness :
    addBookmark 7 { baseState with bookmarkName := "   " } =
      ({ baseState with bookmarkName := "   " }, none) :=
  addBookmark_empty_name_noop 7 { baseState with bookmarkName := "   " } rfl

/-! Claim C5: the 20-entry bookmark cap. -/

/-- The bookmark record `addBookmark` builds from the current session. -/
def freshBookmark (now : ℕ) (st : PlannerState) : Bookmark :=
  { id := "b_" ++ natStr now, name := jsTrim st.bookmarkName,
    start := st.start, end_ := st.end_ }

/-- C5: the collection never exceeds 20 entries; with a valid name and
a full collection of 20, the new bookmark is prepended (most recent
first) and exactly the oldest (last) entry is evicted, the other 19
kept in order; below 20 nothing is evicted. -/
theorem addBookmark_cap_spec (now : ℕ) (st : PlannerState)
    (hlen : st.bookmarks.length ≤ 20) :
    ((addBookmark now st).1).bookmarks.length ≤ 20 ∧
    (jsTrim st.bookmarkName ≠ "" → st.bookmarks.length = 20 →
      ((addBookmark now st).1).bookmarks = freshBookmark now st :: st.bookmarks.take 19) ∧
    (jsTrim st.bookmarkName ≠ "" → st.bookmarks.length < 20 →
      ((addBookmark now st).1).bookmarks = freshBookmark now st :: st.bookmarks) := by
  by_cases h : jsTrim st.bookmarkName = ""
  · refine ⟨?_, fun hn => absurd h hn, fun hn => absurd h hn⟩
    rw [addBookmark, if_pos h]
    exact hlen
  · have hb : ((addBookmark now st).1).bookmarks =
        (freshBookmark now st :: st.bookmarks).take 20 := by
      rw [addBookmark, if_neg h]
      rfl
    refine ⟨?_, fun _ h20 => ?_, fun _ hlt => ?_⟩
    · rw [hb, List.length_take]
      omega
    · rw [hb]
      rfl
    · rw [hb]
      have : (freshBookmark now st :: st.bookmarks).length ≤ 20 := by
        simp only [List.length_cons]
        omega
      rw [List.take_of_length_le this]

/-- C5 witness: adding to a full collection of 20 keeps the first 19
old entries behind the new head. -/
theorem addBookmark_cap_witness :
    ((addBookmark 7 { baseState with bookmarks := twentyBookmarks }).1).bookmarks =
      freshBookmark 7 { baseState with bookmarks := twentyBookmarks } ::
        twentyBookmarks.take 19 :=
  (addBookmark_cap_spec 7 { baseState with bookmarks := twentyBookmarks }
    (by simp [twentyBookmarks])).2.1 (by decide)
    (by simp [twentyBookmarks])

/-! Claim C10: removing bookmarks by identifier. -/

/-- C10: deleting by id keeps a subsequence of the old collection (so
relative order of the survivors is preserved), keeps exactly the
bookmarks whose id differs from the argument, is a no-op when nothing
matches, and persists precisely the new collection. -/
theorem deleteBookmark_spec (i : String) (st : PlannerState) :
    ((deleteBookmark i st).1.bookmarks).Sublist st.bookmarks ∧
    (∀ b : Bookmark, b ∈ (deleteBookmark i st).1.bookmarks ↔ (b ∈ st.bookmarks ∧ b.id ≠ i)) ∧
    ((∀ b : Bookmark, b ∈ st.bookmarks → b.id ≠ i) →
      (deleteBookmark i st).1.bookmarks = st.bookmarks) ∧
    (deleteBookmark i st).2 = (deleteBookmark i st).1.bookmarks := by
  refine ⟨List.filter_sublist st.bookmarks, fun b => ?_, fun hall => ?_, rfl⟩
  · simp [deleteBookmark, List.mem_filter]
  · show st.bookmarks.filter (fun b => b.id ≠ i) = st.bookmarks
    rw [List.filter_eq_self]
    intro b hb
    simpa using hall b hb

/-- C10 witness: deleting an id that matches nothing is a no-op. -/
theorem deleteBookmark_spec_witness :
    (deleteBookmark "zzz" { baseState with bookmarks := [bmk 0, bmk 1] }).1.bookmarks =
      [bmk 0, bmk 1] :=
  (deleteBookmark_spec "zzz" { baseState with bookmarks := [bmk 0, bmk 1] }).2.2.1
    (by decide)

/-! Claim C1: what issuing a plan request does to the held results. -/

/-- C1 counterexample: a session holding a chosen route and one
alternative loses both the moment `showSafest` issues its request, and
a transport failure leaves them lost — so the prior values are not
retained while the request is in flight. -/
theorem plan_clears_counterexample :
    planningState.chosenRoute = some sampleCandidate ∧
    (planTransportFail (showSafestIssue planningState emptyOpts).1).chosenRoute = none ∧
    (planTransportFail (showSafestIssue planningState emptyOpts).1).alternatives = [] ∧
    (planTransportFail (showSafestIssue planningState emptyOpts).1).chosenRoute ≠
      planningState.chosenRoute := by
  refine ⟨rfl, rfl, rfl, ?_⟩
  intro h
  exact Option.noConfusion h

/-- C1 amended: issuing `plan()` clears the chosen route, the
alternatives and the log status immediately (rather than retaining
them), leaves every other field unchanged, and a transport failure
performs no further mutation, so the session stays in that cleared
in-flight state — no automatic retry and no other state change. -/
theorem plan_issue_clear_spec (st : PlannerState) (opts : PlanOpts) :
    (planTransportFail (showSafestIssue st opts).1).chosenRoute = none ∧
    (planTransportFail (showSafestIssue st opts).1).alternatives = [] ∧
    (planTransportFail (showSafestIssue st opts).1).logStatus = "" ∧
    (planTransportFail (showSafestIssue st opts).1).mode = st.mode ∧
    (planTransportFail (showSafestIssue st opts).1).timeOfDay = st.timeOfDay ∧
    (planTransportFail (showSafestIssue st opts).1).autoRefresh = st.autoRefresh ∧
    (planTransportFail (showSafestIssue st opts).1).result = st.result ∧
    (planTransportFail (showSafestIssue st opts).1).start = st.start ∧
    (planTransportFail (showSafestIssue st opts).1).end_ = st.end_ ∧
    (planTransportFail (showSafestIssue st opts).1).selecting = st.selecting ∧
    (planTransportFail (showSafestIssue st opts).1).userId = st.userId ∧
    (planTransportFail (showSafestIssue st opts).1).trips = st.trips ∧
    (planTransportFail (showSafestIssue st opts).1).loadingTrips = st.loadingTrips ∧
    (planTransportFail (showSafestIssue st opts).1).tripFilter = st.tripFilter ∧
    (planTransportFail (showSafestIssue st opts).1).summary = st.summary ∧
    (planTransportFail (showSafestIssue st opts).1).bookmarks = st.bookmarks ∧
    (planTransportFail (showSafestIssue st opts).1).bookmarkName = st.bookmarkName := by
  refine ⟨rfl, rfl, rfl, rfl, rfl, rfl, rfl, rfl, rfl, rfl, rfl, rfl, rfl, rfl, rfl,
    rfl, rfl⟩

/-! Claim C2: independence of the two trip-history fetches. -/

/-- C2 counterexample: with the trip-list fetch failing while a summary
response is available, `loadTrips` never issues the summary fetch and
the summary cache stays empty — the failure of one call does prevent
the other. -/
theorem loadTrips_counterexample :
    (loadTrips "user_a" FetchResult.transportError (FetchResult.ok sampleSummary)
        baseState).2 = [TripFetch.tripList] ∧
    (loadTrips "user_a" FetchResult.transportError (FetchResult.ok sampleSummary)
        baseState).1.summary = none ∧
    (loadTrips "user_a" FetchResult.transportError (FetchResult.ok sampleSummary)
        baseState).1.summary ≠ some sampleSummary := by
  refine ⟨rfl, rfl, ?_⟩
  intro h
  exact Option.noConfusion h

/-- C2 amended: the two fetches are sequential, not independent.  A
blank uid fetches nothing.  A trip-list failure prevents the summary
fetch and leaves both caches unchanged (only the loading flag is
reset).  In the other direction the original claim survives: a summary
failure does not undo the already-applied trip-list update, and a
fully successful run updates both caches. -/
theorem loadTrips_sequential_spec (uid : String) (r1 : FetchResult TripsResponse)
    (r2 : FetchResult TripSummary) (st : PlannerState) :
    (uid = "" → loadTrips uid r1 r2 st = (st, [])) ∧
    (uid ≠ "" → r1 = FetchResult.transportError →
      loadTrips uid r1 r2 st =
        ({ st with loadingTrips := false }, [TripFetch.tripList])) ∧
    (∀ t, uid ≠ "" → r1 = FetchResult.ok t → r2 = FetchResult.transportError →
      loadTrips uid r1 r2 st =
        ({ st with trips := t.trips.getD [], loadingTrips := false },
         [TripFetch.tripList, TripFetch.summaryFetch])) ∧
    (∀ t s, uid ≠ "" → r1 = FetchResult.ok t → r2 = FetchResult.ok s →
      loadTrips uid r1 r2 st =
        ({ st with trips := t.trips.getD [], summary := some s, loadingTrips := false },
         [TripFetch.tripList, TripFetch.summaryFetch])) := by
  refine ⟨fun h0 => ?_, fun hu h1 => ?_, fun t hu h1 h2 => ?_, fun t s hu h1 h2 => ?_⟩
  · rw [loadTrips.eq_def, if_pos h0]
  · subst h1
    rw [loadTrips.eq_def, if_neg hu]
  · subst h1
    subst h2
    rw [loadTrips.eq_def, if_neg hu]
  · subst h1
    subst h2
    rw [loadTrips.eq_def, if_neg hu]

/-- C2 witness: the summary-failure direction at concrete inputs — the
trip list is still applied. -/
theorem loadTrips_sequential_witness :
    loadTrips "user_a" (FetchResult.ok ⟨some []⟩) FetchResult.transportError baseState =
      ({ baseState with trips := [], loadingTrips := false },
       [TripFetch.tripList, TripFetch.summaryFetch]) :=
  (loadTrips_sequential_spec "user_a" (FetchResult.ok ⟨some []⟩)
    FetchResult.transportError baseState).2.2.1 ⟨some []⟩ (by decide) rfl rfl

/-! Claim C6: logging the current trip. -/

/-- C6: with no chosen route `logTrip` changes nothing and issues no
request; with a chosen route the posted payload carries
`distance_km = distance_m / 1000` rounded to three decimal places and
`route_id` equal to the route fingerprint when that is nonempty, else
the timestamp fallback. -/
theorem logTrip_spec (now : ℕ) (st : PlannerState) :
    (st.chosenRoute = none → logTrip now st = (st, none)) ∧
    (∀ c, st.chosenRoute = some c →
      ∃ p : TripPayload,
        logTrip now st = ({ st with logStatus := "" }, some p) ∧
        p.distance_km = toFixedVal 1000 (c.distance_m / 1000) ∧
        p.route_id = (if routeId st.chosenRoute = "" then "r_" ++ natStr now
                      else routeId st.chosenRoute) ∧
        p.user_uid = st.userId ∧ p.origin = st.start ∧ p.destination = st.end_ ∧
        p.mode = st.mode ∧ p.eta_minutes = c.eta_minutes ∧
        p.safety_score = c.average_safety_score) := by
  constructor
  · intro h
    rw [logTrip.eq_def, h]
  · intro c hc
    rw [logTrip.eq_def, hc]
    exact ⟨_, rfl, rfl, rfl, rfl, rfl, rfl, rfl, rfl, rfl⟩

/-- C6 witness: a session with no chosen route logs nothing. -/
theorem logTrip_spec_witness :
    logTrip 1700000000000 baseState = (baseState, none) :=
  (logTrip_spec 1700000000000 baseState).1 rfl

/-! Claim C7: out-of-range coordinates and the plan request. -/

/-- C7 counterexample: a session whose start latitude is 200 — outside
the valid range — still has its plan request issued, carrying the
out-of-range value verbatim: no validation error is raised before the
network call. -/
theorem validation_counterexample :
    ¬ validGeoPoint badStartState.start ∧
    (showSafestIssue badStartState emptyOpts).2.start = ⟨200, 0⟩ := by
  constructor
  · intro h
    have h2 := h.2.1
    norm_num [badStartState, baseState] at h2
  · rfl

/-- C7 amended: the client performs no coordinate validation at all.
Whatever the (possibly out-of-range) start and end values are, the
plan request is issued and carries them unmodified — they are not
clamped, but they do reach the network layer. -/
theorem plan_no_validation_spec (st : PlannerState) (opts : PlanOpts)
    (_h : ¬ validGeoPoint (jsOrPoint opts.start st.start) ∨
          ¬ validGeoPoint (jsOrPoint opts.end_ st.end_)) :
    (showSafestIssue st opts).2.start = jsOrPoint opts.start st.start ∧
    (showSafestIssue st opts).2.end_ = jsOrPoint opts.end_ st.end_ := by
  exact ⟨rfl, rfl⟩

/-- C7 witness: the passthrough at the concrete invalid state. -/
theorem plan_no_validation_witness :
    (showSafestIssue badStartState emptyOpts).2.start =
      jsOrPoint emptyOpts.start badStartState.start :=
  (plan_no_validation_spec badStartState emptyOpts
    (Or.inl (fun h => by
      have h2 := h.2.1
      norm_num [jsOrPoint, emptyOpts, badStartState, baseState] at h2))).1

/-! Claim C8: the auto-recompute effect. -/

/-- C8: when the committed deps (mode, time of day, start, end) change
with auto-refresh on and a result already computed, the effect issues
exactly one plan request, built from the post-change state; with
auto-refresh off or no result computed yet, it issues none. -/
theorem autoRecompute_spec (st : PlannerState) :
    (st.autoRefresh = true → st.result.isSome = true →
      autoRecomputeEffect st =
        ((showSafestIssue st emptyOpts).1,
         [{ start := st.start, end_ := st.end_, mode := st.mode,
            time_of_day := st.timeOfDay }])) ∧
    (st.autoRefresh = false ∨ st.result = none →
      autoRecomputeEffect st = (st, [])) := by
  constructor
  · intro ha hr
    rw [autoRecomputeEffect, if_pos]
    · rfl
    · rw [ha, hr]
      rfl
  · intro h
    rw [autoRecomputeEffect, if_neg]
    intro hcontra
    rcases h with h | h
    · rw [h] at hcontra
      exact Bool.noConfusion hcontra
    · rw [h] at hcontra
      rw [Bool.and_eq_true] at hcontra
      exact Bool.noConfusion hcontra.2

/-- C8 witness: the spec scenario — after the mode changed to
night_safe in a session that has computed a route, exactly one request
goes out, carrying the new mode and the unchanged start and end. -/
theorem autoRecompute_witness :
    autoRecomputeEffect nightState =
      ((showSafestIssue nightState emptyOpts).1,
       [PlanRequest.mk nightState.start nightState.end_ "night_safe" "day"]) := by
  have h := (autoRecompute_spec nightState).1 rfl rfl
  exact h

/-! Machinery for claim C3: reading the fingerprint string back. -/

/-- Prepending to the accumulator commutes with the digit loop. -/
theorem natDigitsGo_append (fuel : ℕ) : ∀ (n : ℕ) (acc : List Char),
    natDigitsGo fuel n acc = natDigitsGo fuel n [] ++ acc := by
  induction fuel with
  | zero =>
    intro n acc
    rfl
  | succ fuel ih =>
    intro n acc
    by_cases h : n < 10
    · rw [natDigitsGo, if_pos h, natDigitsGo, if_pos h]
      rfl
    · rw [natDigitsGo, if_neg h, natDigitsGo, if_neg h, ih (n / 10),
        ih (n / 10) [digitChar (n % 10)]]
      simp

/-- Code point of a digit character. -/
theorem digitChar_toNat {d : ℕ} (hd : d < 10) : (digitChar d).toNat = 48 + d := by
  interval_cases d <;> rfl

/-- Digit characters are injective below ten. -/
theorem digitChar_inj {a b : ℕ} (ha : a < 10) (hb : b < 10)
    (h : digitChar a = digitChar b) : a = b := by
  have h2 := congrArg Char.toNat h
  rw [digitChar_toNat ha, digitChar_toNat hb] at h2
  omega

/-- Numeric read-back of a most-significant-first digit list. -/
def digitsVal (l : List Char) : ℕ :=
  l.foldl (fun a c => 10 * a + (c.toNat - 48)) 0

/-- Read-back of a list extended by one final digit. -/
theorem digitsVal_append_one (xs : List Char) (c : Char) :
    digitsVal (xs ++ [c]) = 10 * digitsVal xs + (c.toNat - 48) := by
  rw [digitsVal, List.foldl_append]
  rfl

/-- Reading the digits of `n` back recovers `n` (with enough fuel). -/
theorem natDigitsGo_val (fuel : ℕ) : ∀ n : ℕ, n ≤ fuel →
    digitsVal (natDigitsGo fuel n []) = n := by
  induction fuel with
  | zero =>
    intro n hn
    have h0 : n = 0 := by omega
    subst h0
    rfl
  | succ fuel ih =>
    intro n hn
    by_cases h : n < 10
    · rw [natDigitsGo, if_pos h]
      show 10 * 0 + ((digitChar n).toNat - 48) = n
      rw [digitChar_toNat h]
      omega
    · rw [natDigitsGo, if_neg h, natDigitsGo_append]
      rw [digitsVal_append_one, ih (n / 10) (by omega),
        digitChar_toNat (Nat.mod_lt _ (by omega))]
      omega

/-- Decimal digit lists are injective. -/
theorem natDigits_inj {m n : ℕ} (h : natDigits m = natDigits n) : m = n := by
  have hm := natDigitsGo_val m m le_rfl
  have hn := natDigitsGo_val n n le_rfl
  rw [natDigits, natDigits] at h
  rw [← hm, ← hn, h]

/-- Every character the digit loop emits is a decimal digit. -/
theorem natDigitsGo_mem (fuel : ℕ) : ∀ n : ℕ, n ≤ fuel →
    ∀ c ∈ natDigitsGo fuel n [], 48 ≤ c.toNat ∧ c.toNat ≤ 57 := by
  induction fuel with
  | zero =>
    intro n hn c hc
    have h0 : n = 0 := by omega
    subst h0
    rcases List.mem_singleton.mp hc with rfl
    rw [digitChar_toNat (by omega)]
    omega
  | succ fuel ih =>
    intro n hn c hc
    by_cases h : n < 10
    · rw [natDigitsGo, if_pos h] at hc
      rcases List.mem_singleton.mp hc with rfl
      rw [digitChar_toNat h]
      omega
    · rw [natDigitsGo, if_neg h, natDigitsGo_append, List.mem_append] at hc
      rcases hc with hc | hc
      · exact ih (n / 10) (by omega) c hc
      · rcases List.mem_singleton.mp hc with rfl
        rw [digitChar_toNat (Nat.mod_lt _ (by omega))]
        omega

/-- Every character of `natDigits n` is a decimal digit. -/
theorem natDigits_mem {n : ℕ} {c : Char} (hc : c ∈ natDigits n) :
    48 ≤ c.toNat ∧ c.toNat ≤ 57 :=
  natDigitsGo_mem n n le_rfl c hc

/-- The digit loop never produces the empty list. -/
theorem natDigitsGo_ne_nil (fuel : ℕ) : ∀ (n : ℕ) (acc : List Char),
    natDigitsGo fuel n acc ≠ [] := by
  induction fuel with
  | zero =>
    intro n acc
    simp [natDigitsGo]
  | succ fuel ih =>
    intro n acc
    by_cases h : n < 10
    · simp [natDigitsGo, if_pos h]
    · rw [natDigitsGo, if_neg h]
      exact ih _ _

/-- Every character of the four-digit pad is a decimal digit. -/
theorem pad4_mem {r : ℕ} {c : Char} (hc : c ∈ pad4 r) :
    48 ≤ c.toNat ∧ c.toNat ≤ 57 := by
  simp only [pad4, List.mem_cons, List.not_mem_nil, or_false] at hc
  rcases hc with rfl | rfl | rfl | rfl <;>
    (rw [digitChar_toNat (Nat.mod_lt _ (by omega))]; omega)

/-- The four-digit pad is injective below 10000. -/
theorem pad4_inj {r s : ℕ} (hr : r < 10000) (hs : s < 10000)
    (h : pad4 r = pad4 s) : r = s := by
  rw [pad4, pad4] at h
  simp only [List.cons.injEq, and_true] at h
  obtain ⟨h1, h2, h3, h4⟩ := h
  have e1 := digitChar_inj (Nat.mod_lt _ (by omega)) (Nat.mod_lt _ (by omega)) h1
  have e2 := digitChar_inj (Nat.mod_lt _ (by omega)) (Nat.mod_lt _ (by omega)) h2
  have e3 := digitChar_inj (Nat.mod_lt _ (by omega)) (Nat.mod_lt _ (by omega)) h3
  have e4 := digitChar_inj (Nat.mod_lt _ (by omega)) (Nat.mod_lt _ (by omega)) h4
  omega

/-- Splitting two appends at a shared separator absent from both
prefixes. -/
theorem append_sep_split {α : Type} {s : α} :
    ∀ (xs ys t1 t2 : List α), s ∉ xs → s ∉ ys →
      xs ++ s :: t1 = ys ++ s :: t2 → xs = ys ∧ t1 = t2 := by
  intro xs
  induction xs with
  | nil =>
    intro ys t1 t2 _ hys h
    cases ys with
    | nil =>
      simpa using h
    | cons y ys =>
      simp only [List.nil_append, List.cons_append, List.cons.injEq] at h
      obtain ⟨h1, -⟩ := h
      subst h1
      exact absurd (List.mem_cons_self _ _) hys
  | cons x xs ih =>
    intro ys t1 t2 hxs hys h
    cases ys with
    | nil =>
      simp only [List.cons_append, List.nil_append, List.cons.injEq] at h
      obtain ⟨h1, -⟩ := h
      subst h1
      exact absurd (List.mem_cons_self _ _) hxs
    | cons y ys =>
      simp only [List.cons_append, List.cons.injEq] at h
      obtain ⟨hxy, hrest⟩ := h
      have hxs2 : s ∉ xs := fun hh => hxs (List.mem_cons_of_mem _ hh)
      have hys2 : s ∉ ys := fun hh => hys (List.mem_cons_of_mem _ hh)
      obtain ⟨h1, h2⟩ := ih ys t1 t2 hxs2 hys2 hrest
      exact ⟨by rw [hxy, h1], h2⟩

/-- Characters of a fixed-four rendering: digits or the decimal dot. -/
theorem fixed4Nat_mem {k : ℕ} {c : Char} (hc : c ∈ fixed4Nat k) :
    c = '.' ∨ (48 ≤ c.toNat ∧ c.toNat ≤ 57) := by
  rw [fixed4Nat, List.mem_append, List.mem_cons] at hc
  rcases hc with hc | hc | hc
  · exact Or.inr (natDigits_mem hc)
  · exact Or.inl hc
  · exact Or.inr (pad4_mem hc)

/-- The fixed-four rendering of a scaled natural is injective. -/
theorem fixed4Nat_inj {k k2 : ℕ} (h : fixed4Nat k = fixed4Nat k2) : k = k2 := by
  rw [fixed4Nat, fixed4Nat] at h
  have hdot : ('.' : Char).toNat = 46 := rfl
  have hd1 : '.' ∉ natDigits (k / 10000) := by
    intro hm
    have := natDigits_mem hm
    omega
  have hd2 : '.' ∉ natDigits (k2 / 10000) := by
    intro hm
    have := natDigits_mem hm
    omega
  obtain ⟨h1, h2⟩ := append_sep_split _ _ _ _ hd1 hd2 h
  have e1 := natDigits_inj h1
  have e2 := pad4_inj (Nat.mod_lt _ (by omega)) (Nat.mod_lt _ (by omega)) h2
  omega

/-- The half-up rounding of a nonnegative value is nonnegative. -/
theorem halfUpScaled_nonneg {s : ℕ} {q : ℚ} (h : 0 ≤ q) :
    0 ≤ halfUpScaled s q := by
  rw [halfUpScaled, Int.le_floor]
  have hs : (0 : ℚ) ≤ q * s := mul_nonneg h (by positivity)
  push_cast
  linarith

/-- The head of a fixed-four rendering is a digit, never a minus sign. -/
theorem fixed4Nat_head_ne (k : ℕ) (t : List Char) :
    fixed4Nat k ≠ '-' :: t := by
  intro h
  rw [fixed4Nat] at h
  cases hnd : natDigits (k / 10000) with
  | nil => exact natDigitsGo_ne_nil _ _ _ hnd
  | cons c cs =>
    rw [hnd] at h
    rw [List.cons_append, List.cons.injEq] at h
    have hm : c ∈ natDigits (k / 10000) := by
      rw [hnd]
      exact List.mem_cons_self _ _
    have := natDigits_mem hm
    rw [h.1] at this
    have hminus : ('-' : Char).toNat = 45 := rfl
    omega

/-- `fixed4Chars` determines, and is determined by, the displayed sign
and the half-up-rounded scaled magnitude. -/
theorem fixed4Chars_eq_iff {a b : ℚ} :
    fixed4Chars a = fixed4Chars b ↔ rounded4 a = rounded4 b := by
  constructor
  · intro h
    rw [fixed4Chars, fixed4Chars] at h
    rw [rounded4, rounded4]
    by_cases ha : a < 0 <;> by_cases hb : b < 0
    · rw [if_pos ha, if_pos hb] at h
      rw [List.cons.injEq] at h
      have h3 := fixed4Nat_inj h.2
      have hna := halfUpScaled_nonneg (s := 10000) (q := -a) (by linarith)
      have hnb := halfUpScaled_nonneg (s := 10000) (q := -b) (by linarith)
      have h4 : halfUpScaled 10000 (-a) = halfUpScaled 10000 (-b) := by omega
      rw [if_pos ha, if_pos hb, h4, decide_eq_true ha, decide_eq_true hb]
    · rw [if_pos ha, if_neg hb] at h
      exact absurd h.symm (fixed4Nat_head_ne _ _)
    · rw [if_neg ha, if_pos hb] at h
      exact absurd h (fixed4Nat_head_ne _ _)
    · rw [if_neg ha, if_neg hb] at h
      have h3 := fixed4Nat_inj h
      have hna := halfUpScaled_nonneg (s := 10000) (q := a) (by linarith)
      have hnb := halfUpScaled_nonneg (s := 10000) (q := b) (by linarith)
      have h4 : halfUpScaled 10000 a = halfUpScaled 10000 b := by omega
      rw [if_neg ha, if_neg hb, h4, decide_eq_false ha, decide_eq_false hb]
  · intro h
    rw [rounded4, rounded4, Prod.mk.injEq] at h
    obtain ⟨hs, hv⟩ := h
    by_cases ha : a < 0 <;> by_cases hb : b < 0
    · rw [if_pos ha, if_pos hb] at hv
      rw [fixed4Chars, fixed4Chars, if_pos ha, if_pos hb, hv]
    · rw [decide_eq_true ha, decide_eq_false hb] at hs
      exact Bool.noConfusion hs
    · rw [decide_eq_false ha, decide_eq_true hb] at hs
      exact Bool.noConfusion hs
    · rw [if_neg ha, if_neg hb] at hv
      rw [fixed4Chars, fixed4Chars, if_neg ha, if_neg hb, hv]

/-- The decimal rendering of an integer is injective. -/
theorem intChars_inj {m m2 : ℤ} (h : intChars m = intChars m2) : m = m2 := by
  rw [intChars, intChars] at h
  have hhead : ∀ (k : ℕ) (t : List Char), natDigits k ≠ '-' :: t := by
    intro k t hk
    cases hnd : natDigits k with
    | nil => exact natDigitsGo_ne_nil _ _ _ hnd
    | cons c cs =>
      rw [hnd] at hk
      rw [List.cons.injEq] at hk
      have hm : c ∈ natDigits k := by
        rw [hnd]
        exact List.mem_cons_self _ _
      have := natDigits_mem hm
      rw [hk.1] at this
      have hminus : ('-' : Char).toNat = 45 := rfl
      omega
  by_cases hm1 : m < 0 <;> by_cases hm2 : m2 < 0
  · rw [if_pos hm1, if_pos hm2, List.cons.injEq] at h
    have := natDigits_inj h.2
    omega
  · rw [if_pos hm1, if_neg hm2] at h
    exact absurd h.symm (hhead _ _)
  · rw [if_neg hm1, if_pos hm2] at h
    exact absurd h (hhead _ _)
  · rw [if_neg hm1, if_neg hm2] at h
    have := natDigits_inj h
    omega

/-- The underscore separator never occurs in a coordinate rendering. -/
theorem underscore_not_mem_fixed4Chars (q : ℚ) : '_' ∉ fixed4Chars q := by
  intro h
  rw [fixed4Chars] at h
  have hval : ('_' : Char).toNat = 95 := rfl
  by_cases hq : q < 0
  · rw [if_pos hq, List.mem_cons] at h
    rcases h with h | h
    · exact absurd h (by decide)
    · rcases fixed4Nat_mem h with h | h
      · exact absurd h (by decide)
      · omega
  · rw [if_neg hq] at h
    rcases fixed4Nat_mem h with h | h
    · exact absurd h (by decide)
    · omega

/-- The underscore separator never occurs in the distance rendering. -/
theorem underscore_not_mem_intChars (m : ℤ) : '_' ∉ intChars m := by
  intro h
  rw [intChars] at h
  have hval : ('_' : Char).toNat = 95 := rfl
  by_cases hm : m < 0
  · rw [if_pos hm, List.mem_cons] at h
    rcases h with h | h
    · exact absurd h (by decide)
    · have := natDigits_mem h
      omega
  · rw [if_neg hm] at h
    have := natDigits_mem h
    omega

/-- The fingerprint body of a candidate whose endpoints are known. -/
theorem routeIdCore_cons (c : RouteCandidate) (hd tl : ℚ × ℚ)
    (e : c.geometry.coordinates.head? = some hd)
    (f : c.geometry.coordinates.getLast? = some tl) :
    routeIdCore c = 'r' :: '_' :: (fixed4Chars hd.1 ++ '_' :: (fixed4Chars hd.2 ++
      '_' :: (fixed4Chars tl.1 ++ '_' :: (fixed4Chars tl.2 ++
        '_' :: intChars (jsRound c.distance_m))))) := by
  rw [routeIdCore.eq_def, e, f]

/-! Claim C3: the route fingerprint as a function of its three inputs. -/

/-- A candidate with head point at the origin. -/
def idCandA : RouteCandidate :=
  { geometry := ⟨[(0, 0), (1, 1)]⟩, distance_m := 100, eta_minutes := 5,
    average_safety_score := 80 }

/-- The same candidate with the head longitude moved by one
nanodegree — far below the four-decimal display resolution. -/
def idCandB : RouteCandidate :=
  { geometry := ⟨[(1 / 1000000000, 0), (1, 1)]⟩, distance_m := 100, eta_minutes := 5,
    average_safety_score := 80 }

/-- The same candidate as `idCandA` with a different distance. -/
def idCandC : RouteCandidate :=
  { geometry := ⟨[(0, 0), (1, 1)]⟩, distance_m := 200, eta_minutes := 5,
    average_safety_score := 80 }

/-- C3 counterexample: two chosen candidates whose first geometry
points differ (by a nanodegree) yet whose fingerprints are the same
string — changing one of the three inputs does not always change the
id.  Only the displayed 4-decimal rounding of the points matters. -/
theorem routeId_counterexample :
    routeId (some idCandA) = routeId (some idCandB) ∧
    idCandA.geometry.coordinates.head? ≠ idCandB.geometry.coordinates.head? := by
  constructor
  · show String.mk (routeIdCore idCandA) = String.mk (routeIdCore idCandB)
    rw [routeIdCore_cons idCandA (0, 0) (1, 1) rfl rfl,
      routeIdCore_cons idCandB (1 / 1000000000, 0) (1, 1) rfl rfl]
    dsimp only [idCandA, idCandB]
    have h1 : fixed4Chars ((1 : ℚ) / 1000000000) = fixed4Chars 0 := by
      apply fixed4Chars_eq_iff.mpr
      rw [rounded4, rounded4]
      have ha : ¬ ((1 : ℚ) / 1000000000 < 0) := by norm_num
      have hb : ¬ ((0 : ℚ) < 0) := by norm_num
      rw [if_neg ha, if_neg hb, decide_eq_false ha, decide_eq_false hb]
      have hv : halfUpScaled 10000 ((1 : ℚ) / 1000000000) = halfUpScaled 10000 0 := by
        rw [halfUpScaled, halfUpScaled]
        norm_num
      rw [hv]
    rw [h1]
  · intro h
    have h2 : ((0 : ℚ), (0 : ℚ)) = (((1 : ℚ) / 1000000000, (0 : ℚ)) : ℚ × ℚ) :=
      Option.some.inj h
    have h3 := congrArg Prod.fst h2
    norm_num at h3

/-- C3 amended: for candidates with nonempty geometry, the fingerprint
strings are equal exactly when the three displayed inputs agree — the
first point, the last point (each at the 4-decimal sign-and-magnitude
rounding that `toFixed(4)` prints) and the integer-rounded distance.
So the id is a pure function of those three rounded inputs, a change
in any one of them changes the id, and without a chosen candidate (or
with empty geometry) the id is the empty string. -/
theorem routeId_fingerprint_spec (c1 c2 : RouteCandidate) (hd1 tl1 hd2 tl2 : ℚ × ℚ)
    (e1 : c1.geometry.coordinates.head? = some hd1)
    (f1 : c1.geometry.coordinates.getLast? = some tl1)
    (e2 : c2.geometry.coordinates.head? = some hd2)
    (f2 : c2.geometry.coordinates.getLast? = some tl2) :
    (routeId (some c1) = routeId (some c2) ↔
      (rounded4 hd1.1 = rounded4 hd2.1 ∧ rounded4 hd1.2 = rounded4 hd2.2 ∧
       rounded4 tl1.1 = rounded4 tl2.1 ∧ rounded4 tl1.2 = rounded4 tl2.2 ∧
       jsRound c1.distance_m = jsRound c2.distance_m)) ∧
    routeId none = "" ∧
    (∀ c : RouteCandidate, c.geometry.coordinates = [] → routeId (some c) = "") := by
  refine ⟨?_, rfl, fun c hc => ?_⟩
  · show String.mk (routeIdCore c1) = String.mk (routeIdCore c2) ↔ _
    rw [routeIdCore_cons c1 hd1 tl1 e1 f1, routeIdCore_cons c2 hd2 tl2 e2 f2]
    constructor
    · intro h
      rw [String.ext_iff] at h
      rw [List.cons.injEq, List.cons.injEq] at h
      obtain ⟨-, -, h⟩ := h
      obtain ⟨g1, h⟩ := append_sep_split _ _ _ _
        (underscore_not_mem_fixed4Chars _) (underscore_not_mem_fixed4Chars _) h
      obtain ⟨g2, h⟩ := append_sep_split _ _ _ _
        (underscore_not_mem_fixed4Chars _) (underscore_not_mem_fixed4Chars _) h
      obtain ⟨g3, h⟩ := append_sep_split _ _ _ _
        (underscore_not_mem_fixed4Chars _) (underscore_not_mem_fixed4Chars _) h
      obtain ⟨g4, h⟩ := append_sep_split _ _ _ _
        (underscore_not_mem_fixed4Chars _) (underscore_not_mem_fixed4Chars _) h
      exact ⟨fixed4Chars_eq_iff.mp g1, fixed4Chars_eq_iff.mp g2,
        fixed4Chars_eq_iff.mp g3, fixed4Chars_eq_iff.mp g4, intChars_inj h⟩
    · intro ⟨g1, g2, g3, g4, g5⟩
      rw [String.ext_iff]
      rw [fixed4Chars_eq_iff.mpr g1, fixed4Chars_eq_iff.mpr g2,
        fixed4Chars_eq_iff.mpr g3, fixed4Chars_eq_iff.mpr g4, g5]
  · show String.mk (routeIdCore c) = ""
    rw [routeIdCore.eq_def, hc]
    rfl

/-- C3 witness: two candidates equal in everything but the rounded
distance get different fingerprints. -/
theorem routeId_fingerprint_witness :
    routeId (some idCandA) ≠ routeId (some idCandC) := by
  intro h
  have h5 := ((routeId_fingerprint_spec idCandA idCandC (0, 0) (1, 1) (0, 0) (1, 1)
    rfl rfl rfl rfl).1.mp h).2.2.2.2
  rw [jsRound, jsRound] at h5
  norm_num [idCandA, idCandC] at h5

end SafeRoutes
